import Mathlib

/-!
Shallow embedding of `main.go` from the go-thoughts-backend repository.

The program runs two workers over shared mutable state
(`lastUserMessage`, `lastResponseTime`, `conversationSummary` guarded by a
mutex `mu`):
* a message worker that first drains the backlog
  (`markExistingMessagesAsProcessed`) and then handles each new unprocessed
  message (`listenForNewUserMessages`), and
* a monitor worker that on each 10-second tick fetches the poll, refreshes
  the summary and possibly emits an idle or poll-update prompt
  (`monitorAndRespond`).

External collaborators (Firestore, the Gemini model) are modelled as
oracles packaged in `Env`: each oracle gives the outcome of one external
call.  Timestamps are integers counting nanoseconds, matching Go's
`time.Time`/`time.Duration` arithmetic (`time.Second = 1e9` ns).
Side effects performed by the code (a successful generation, a successful
`writeMessage` upsert, a successful `processed := true` update) are recorded
in an `Effect` list in program order.
-/

namespace GoThoughts

/-- The `Message` struct of `main.go`: `{ID, Message, Timestamp, Processed}`;
`Timestamp` is an integer nanosecond count. -/
structure Message where
  ID : String
  Message : String
  Timestamp : Int
  Processed : Bool
deriving Repr, DecidableEq

/-- The `PollOption` struct: option text, label and the voters list. -/
structure PollOption where
  OpText : String
  Label : String
  Voters : List String
deriving Repr, DecidableEq

/-- The `PollQuestion` struct.  Go stores the options in a
`map[string]PollOption`; the list holds the key/value pairs in the
iteration order Go's `range` happens to produce on a given run. -/
structure PollQuestion where
  Question : String
  Options : List (String × PollOption)
deriving Repr, DecidableEq

/-- `time.Second` in nanoseconds. -/
def timeSecond : Int := 1000000000

/-- One line of the poll summary:
`fmt.Sprintf("%s - %s: %d votes\n", opt.Label, opt.OpText, len(opt.Voters))`. -/
def pollOptionLine (opt : PollOption) : String :=
  opt.Label ++ " - " ++ opt.OpText ++ ": " ++ toString opt.Voters.length ++ " votes\n"

/-- The summary string built by `fetchPollStatus` from a decoded
`PollQuestion`: the question line, then one line per option (in map
iteration order), accumulated with `summary += ...`. -/
def fetchPollStatusSummary (p : PollQuestion) : String :=
  p.Options.foldl (fun acc kv => acc ++ pollOptionLine kv.2)
    ("Question: " ++ p.Question ++ "\n")

/-- `fetchPollStatus`: the Firestore read of document `q1` (together with the
`DataTo` decoding) is an external call whose outcome is the argument; on
success the function returns the computed summary string. -/
def fetchPollStatus (fetchDoc : Except String PollQuestion) : Except String String :=
  match fetchDoc with
  | .error e => .error ("error fetching poll document: " ++ e)
  | .ok p => .ok (fetchPollStatusSummary p)

/-- Concatenation of a list of lines (used to state the shape of the poll
summary). -/
def concatLines : List String → String
  | [] => ""
  | s :: t => s ++ concatLines t

lemma foldl_append_concatLines (f : α → String) (l : List α) (acc : String) :
    l.foldl (fun a b => a ++ f b) acc = acc ++ concatLines (l.map f) := by
  induction l generalizing acc with
  | nil => simp [concatLines]
  | cons h t ih =>
    simp only [List.foldl_cons, List.map_cons, concatLines, ih,
      String.append_assoc]

/-- **C7.** Poll summary and voter counting: for every fetched poll document
the computed summary is the question line followed by one line per option of
the form `label - text: N votes`, where `N` is the *length* of that option's
voters list; in particular an option with voters `["a","b","a"]` reports
3 votes (duplicates counted). -/
theorem fetchPollStatus_summary_shape :
    (∀ p : PollQuestion,
      fetchPollStatus (.ok p) =
        .ok ("Question: " ++ p.Question ++ "\n" ++
          concatLines (p.Options.map (fun kv => pollOptionLine kv.2)))) ∧
    pollOptionLine { OpText := "opt", Label := "A", Voters := ["a", "b", "a"] } =
      "A - opt: 3 votes\n" := by
  constructor
  · intro p
    simp only [fetchPollStatus, fetchPollStatusSummary, foldl_append_concatLines,
      String.append_assoc]
  · rfl

/-- The package-level shared state of `main.go`: `lastUserMessage`,
`lastResponseTime` (as integer nanosecond timestamps, zero valued at process
start like Go's zero `time.Time`) and `conversationSummary`, all guarded by
the mutex `mu`. -/
structure ConvState where
  lastUserMessage : Int
  lastResponseTime : Int
  conversationSummary : String
deriving Repr, DecidableEq

/-- State at process start: zero timestamps, empty summary. -/
def initialState : ConvState :=
  { lastUserMessage := 0, lastResponseTime := 0, conversationSummary := "" }

/-- `updateConversationSummary`: overwrites the shared summary with a fixed
template around the freshly computed poll summary. -/
def updateConversationSummary (pollSummary : String) : String :=
  "Current poll status:\n" ++ pollSummary ++
    "\nConversation history: [Add relevant conversation history here]"

/-- A successful externally visible operation of the program, recorded in
program order:
* `genCall u c` — `generateResponse(ctx, u, c)` returned model text;
* `write coll doc` — `writeMessage` upserted `doc` into collection `coll`;
* `update ref` — `doc.Ref.Update` set `processed := true` on document `ref`. -/
inductive Effect where
  | genCall (userMessage conversationSummary : String)
  | write (collection : String) (doc : Message)
  | update (ref : String)
deriving Repr, DecidableEq

/-- Oracles giving the outcomes of external calls:
`gen` is the Gemini model behind `generateResponse` (already wrapped with
`gemini model error:` on failure), `writeErr` the Firestore `Set` behind
`writeMessage` (keyed by collection and document id), `updateErr` the
Firestore `Update` that flips `processed` (keyed by document ref). -/
structure Env where
  gen : String → String → Except String String
  writeErr : String → String → Option String
  updateErr : String → Option String

/-- `writeMessage(ctx, client, collection, id, message)`: upserts
`Message{ID: id, Message: message, Timestamp: time.Now(), Processed: false}`
under document `id`; `now` is the wall-clock reading taken inside the call. -/
def writeMessage (env : Env) (collection id message : String) (now : Int) :
    Effect × Option String :=
  (Effect.write collection
    { ID := id, Message := message, Timestamp := now, Processed := false },
   env.writeErr collection id)

/-- `generateResponse(ctx, userMessage, conversationSummary)`: one model call
whose outcome the `gen` oracle supplies (the fixed persona prompt template is
part of the external request text and does not affect control flow). -/
def generateResponse (env : Env) (userMessage conversationSummary : String) :
    Effect × Except String String :=
  (Effect.genCall userMessage conversationSummary,
   env.gen userMessage conversationSummary)

/-- Result of one locked section of either worker: the shared state on
unlock, the successful effects in program order, and the error (if any)
returned by the enclosing worker function. -/
structure RunResult where
  state : ConvState
  effects : List Effect
  error : Option String
deriving Repr, DecidableEq

/-- One tick of `monitorAndRespond` (the body of `case <-ticker.C`, executed
with `mu` held): `currentTime := time.Now()` at the top, fetch the poll,
unconditionally refresh `conversationSummary`, then the two-branch decision
policy; `tWrite` is the wall-clock reading inside `writeMessage`. -/
def monitorTick (env : Env) (pingCollection : String)
    (fetchDoc : Except String PollQuestion) (currentTime tWrite : Int)
    (s : ConvState) : RunResult :=
  match fetchPollStatus fetchDoc with
  | .error e =>
    { state := s, effects := [], error := some ("error fetching poll status: " ++ e) }
  | .ok pollSummary =>
    let s1 := { s with conversationSummary := updateConversationSummary pollSummary }
    if currentTime - s.lastUserMessage > 30 * timeSecond ∧
        currentTime - s.lastResponseTime ≥ 10 * timeSecond then
      match generateResponse env "prompt" s1.conversationSummary with
      | (_, .error e) =>
        { state := s1, effects := [], error := some ("error generating prompt: " ++ e) }
      | (g, .ok promptMessage) =>
        match writeMessage env pingCollection "host-prompt" promptMessage tWrite with
        | (_, some e) =>
          { state := s1, effects := [g],
            error := some ("error writing prompt message: " ++ e) }
        | (w, none) =>
          { state := { s1 with lastResponseTime := currentTime },
            effects := [g, w], error := none }
    else if currentTime - s.lastResponseTime ≥ 15 * timeSecond then
      let updateMessage := "Poll update: " ++ pollSummary
      match generateResponse env "poll-update" updateMessage with
      | (_, .error e) =>
        { state := s1, effects := [], error := some ("error generating prompt: " ++ e) }
      | (g, .ok promptMessage) =>
        match writeMessage env pingCollection "host-prompt" promptMessage tWrite with
        | (_, some e) =>
          { state := s1, effects := [g],
            error := some ("error writing prompt message: " ++ e) }
        | (w, none) =>
          { state := { s1 with lastResponseTime := currentTime },
            effects := [g, w], error := none }
    else
      { state := s1, effects := [], error := none }

/-- Handling of one delivered message in `listenForNewUserMessages` (the body
between `mu.Lock()` and the matching `mu.Unlock()`): record
`lastUserMessage := time.Now()` (`t1`), generate a reply from the message
text and the current shared summary, upsert the reply under the triggering
document's own ref id (`docRef`, wall clock `tWrite` inside the write), mark
the source document processed, and record `lastResponseTime := time.Now()`
(`t2`).  Any failure returns the error immediately (after unlocking). -/
def handleMessage (env : Env) (pingCollection docRef : String) (msg : Message)
    (t1 tWrite t2 : Int) (s : ConvState) : RunResult :=
  let s1 := { s with lastUserMessage := t1 }
  match generateResponse env msg.Message s1.conversationSummary with
  | (_, .error e) =>
    { state := s1, effects := [], error := some ("error generating response: " ++ e) }
  | (g, .ok responseMessage) =>
    match writeMessage env pingCollection docRef responseMessage tWrite with
    | (_, some e) =>
      { state := s1, effects := [g],
        error := some ("error writing response message: " ++ e) }
    | (w, none) =>
      match env.updateErr docRef with
      | some e =>
        { state := s1, effects := [g, w],
          error := some ("error marking message as processed: " ++ e) }
      | none =>
        { state := { s1 with lastResponseTime := t2 },
          effects := [g, w, Effect.update docRef], error := none }

/-- grpc status codes, as far as the program distinguishes them:
`status.Code(err)` is compared only against `codes.DeadlineExceeded`
(`status.Code(nil)` is `codes.OK`). -/
inductive GrpcCode where
  | ok
  | deadlineExceeded
  | unknown
  | other (n : Nat)
deriving Repr, DecidableEq

/-- What `listenForNewUserMessages` does right after `snap, err := it.Next()`. -/
inductive ListenerNextOutcome where
  | proceed
  | returnNil
  | returnError (msg : String)
deriving Repr, DecidableEq

/-- The error check after `it.Next()` in `listenForNewUserMessages`:
`nil` error falls through into the document loop; a `DeadlineExceeded` code
prints `Timeout reached` and returns `nil`; any other error returns the
wrapped `Snapshots.Next` error. -/
def snapshotsNextCheck (res : Option (GrpcCode × String)) : ListenerNextOutcome :=
  match res with
  | none => .proceed
  | some (c, m) =>
    if c = .deadlineExceeded then .returnNil
    else .returnError ("Snapshots.Next: " ++ m)

/-- An `Env` in which every external call succeeds. -/
def okEnv : Env :=
  { gen := fun _ _ => .ok "generated reply",
    writeErr := fun _ _ => none,
    updateErr := fun _ => none }

/-- A small concrete poll document used to instantiate theorems. -/
def samplePoll : PollQuestion :=
  { Question := "q",
    Options := [("A", { OpText := "opt", Label := "A", Voters := ["a", "b", "a"] })] }

/-- **C1.** Priority of the idle prompt: on a tick where the idle condition
(`now - lastUserMessage > 30s` and `now - lastResponseTime ≥ 10s`) holds —
even when `now - lastResponseTime ≥ 15s` would also fire the poll-update
branch — the monitor generates the idle prompt (`generateResponse` with user
message `"prompt"` and the refreshed shared summary) and persists it under
the sentinel id `host-prompt`, updating `lastResponseTime := now`; no
poll-update generation (`"poll-update"`) happens on that tick. -/
theorem monitor_idle_priority (env : Env) (ping : String) (p : PollQuestion)
    (t tW : Int) (s : ConvState) (m : String)
    (hgen : env.gen "prompt" (updateConversationSummary (fetchPollStatusSummary p)) = .ok m)
    (hwrite : env.writeErr ping "host-prompt" = none)
    (h30 : t - s.lastUserMessage > 30 * timeSecond)
    (h10 : t - s.lastResponseTime ≥ 10 * timeSecond)
    (h15 : t - s.lastResponseTime ≥ 15 * timeSecond) :
    monitorTick env ping (.ok p) t tW s =
      { state := { s with
          conversationSummary := updateConversationSummary (fetchPollStatusSummary p),
          lastResponseTime := t },
        effects :=
          [Effect.genCall "prompt" (updateConversationSummary (fetchPollStatusSummary p)),
           Effect.write ping
             { ID := "host-prompt", Message := m, Timestamp := tW, Processed := false }],
        error := none } ∧
    ∀ c, Effect.genCall "poll-update" c ∉ (monitorTick env ping (.ok p) t tW s).effects := by
  have hred : monitorTick env ping (.ok p) t tW s =
      { state := { s with
          conversationSummary := updateConversationSummary (fetchPollStatusSummary p),
          lastResponseTime := t },
        effects :=
          [Effect.genCall "prompt" (updateConversationSummary (fetchPollStatusSummary p)),
           Effect.write ping
             { ID := "host-prompt", Message := m, Timestamp := tW, Processed := false }],
        error := none } := by
    simp only [monitorTick, fetchPollStatus, generateResponse, writeMessage]
    rw [if_pos ⟨h30, h10⟩]
    simp only [hgen, hwrite]
  refine ⟨hred, fun c => ?_⟩
  rw [hred]
  simp

/-- Witness for C1 at the spec's concrete instance: `lastUserMessage` 40s
ago, `lastResponseTime` 20s ago. -/
theorem monitor_idle_priority_witness :
    monitorTick okEnv "gccdpune-go-pings" (.ok samplePoll)
        (40 * timeSecond) (40 * timeSecond)
        { lastUserMessage := 0, lastResponseTime := 20 * timeSecond,
          conversationSummary := "" } =
      { state :=
          { lastUserMessage := 0, lastResponseTime := 40 * timeSecond,
            conversationSummary := updateConversationSummary (fetchPollStatusSummary samplePoll) },
        effects :=
          [Effect.genCall "prompt" (updateConversationSummary (fetchPollStatusSummary samplePoll)),
           Effect.write "gccdpune-go-pings"
             { ID := "host-prompt", Message := "generated reply",
               Timestamp := 40 * timeSecond, Processed := false }],
        error := none } :=
  (monitor_idle_priority okEnv "gccdpune-go-pings" samplePoll
    (40 * timeSecond) (40 * timeSecond)
    { lastUserMessage := 0, lastResponseTime := 20 * timeSecond,
      conversationSummary := "" }
    "generated reply" rfl rfl (by decide) (by decide) (by decide)).1

/-- **C2.** Poll-update threshold boundary: on a tick where the idle
condition is false, the monitor emits the poll-update prompt exactly when
`now - lastResponseTime ≥ 15s` (inclusive): at or above 15s it generates
with user message `"poll-update"` and the `Poll update:` text and writes the
sentinel document, updating `lastResponseTime`; strictly below 15s the tick
only refreshes the summary — no generation, no write, no state change to
`lastResponseTime`. -/
theorem monitor_poll_update_boundary (env : Env) (ping : String)
    (p : PollQuestion) (t tW : Int) (s : ConvState) (m : String)
    (hgen : env.gen "poll-update" ("Poll update: " ++ fetchPollStatusSummary p) = .ok m)
    (hwrite : env.writeErr ping "host-prompt" = none)
    (hidle : ¬(t - s.lastUserMessage > 30 * timeSecond ∧
      t - s.lastResponseTime ≥ 10 * timeSecond)) :
    (t - s.lastResponseTime ≥ 15 * timeSecond →
      monitorTick env ping (.ok p) t tW s =
        { state := { s with
            conversationSummary := updateConversationSummary (fetchPollStatusSummary p),
            lastResponseTime := t },
          effects :=
            [Effect.genCall "poll-update" ("Poll update: " ++ fetchPollStatusSummary p),
             Effect.write ping
               { ID := "host-prompt", Message := m, Timestamp := tW, Processed := false }],
          error := none }) ∧
    (t - s.lastResponseTime < 15 * timeSecond →
      monitorTick env ping (.ok p) t tW s =
        { state := { s with
            conversationSummary := updateConversationSummary (fetchPollStatusSummary p) },
          effects := [], error := none }) := by
  constructor
  · intro h15
    simp only [monitorTick, fetchPollStatus, generateResponse, writeMessage]
    rw [if_neg hidle, if_pos h15]
    simp only [hgen, hwrite]
  · intro h15
    simp only [monitorTick, fetchPollStatus, generateResponse, writeMessage]
    rw [if_neg hidle, if_neg (by omega)]

/-- Witness for C2 at the spec's boundary instances: with `lastUserMessage`
10s ago, a tick at exactly 15s since `lastResponseTime` emits the
poll-update prompt, and a tick at 14.99s emits nothing and writes nothing. -/
theorem monitor_poll_update_boundary_witness :
    monitorTick okEnv "gccdpune-go-pings" (.ok samplePoll)
        (15 * timeSecond) (15 * timeSecond)
        { lastUserMessage := 5 * timeSecond, lastResponseTime := 0,
          conversationSummary := "" } =
      { state :=
          { lastUserMessage := 5 * timeSecond,
            lastResponseTime := 15 * timeSecond,
            conversationSummary := updateConversationSummary (fetchPollStatusSummary samplePoll) },
        effects :=
          [Effect.genCall "poll-update" ("Poll update: " ++ fetchPollStatusSummary samplePoll),
           Effect.write "gccdpune-go-pings"
             { ID := "host-prompt", Message := "generated reply",
               Timestamp := 15 * timeSecond, Processed := false }],
        error := none } ∧
    monitorTick okEnv "gccdpune-go-pings" (.ok samplePoll)
        (14990000000 : Int) (14990000000 : Int)
        { lastUserMessage := 5 * timeSecond, lastResponseTime := 0,
          conversationSummary := "" } =
      { state :=
          { lastUserMessage := 5 * timeSecond, lastResponseTime := 0,
            conversationSummary := updateConversationSummary (fetchPollStatusSummary samplePoll) },
        effects := [], error := none } :=
  ⟨(monitor_poll_update_boundary okEnv "gccdpune-go-pings" samplePoll
      (15 * timeSecond) (15 * timeSecond)
      { lastUserMessage := 5 * timeSecond, lastResponseTime := 0,
        conversationSummary := "" }
      "generated reply" rfl rfl (by decide)).1 (by decide),
   (monitor_poll_update_boundary okEnv "gccdpune-go-pings" samplePoll
      (14990000000 : Int) (14990000000 : Int)
      { lastUserMessage := 5 * timeSecond, lastResponseTime := 0,
        conversationSummary := "" }
      "generated reply" rfl rfl (by decide)).2 (by decide)⟩

/-- An `Env` in which the reply write (`writeMessage`) fails. -/
def failWriteEnv : Env :=
  { gen := fun _ _ => .ok "generated reply",
    writeErr := fun _ _ => some "rpc error: unavailable",
    updateErr := fun _ => none }

/-- An `Env` in which the model call fails. -/
def failGenEnv : Env :=
  { gen := fun _ _ => .error "gemini model error: quota exceeded",
    writeErr := fun _ _ => none,
    updateErr := fun _ => none }

/-- A concrete inbound message used to instantiate theorems. -/
def sampleMsg : Message :=
  { ID := "m1", Message := "hello", Timestamp := 0, Processed := false }

/-- **C5.** Reply binding: for a live-handled inbound message with document
ref `docRef`, the generated reply is upserted under identifier `docRef`
itself as `{ID := docRef, Message := reply, Timestamp, Processed := false}`,
and the `processed := true` update of the source document happens after the
reply write in program order; if the reply write fails, the source document
is never marked processed. -/
theorem handleMessage_reply_binding (env : Env) (ping docRef : String)
    (msg : Message) (t1 tW t2 : Int) (s : ConvState) (resp : String)
    (hgen : env.gen msg.Message s.conversationSummary = .ok resp) :
    (env.writeErr ping docRef = none → env.updateErr docRef = none →
      handleMessage env ping docRef msg t1 tW t2 s =
        { state := { s with lastUserMessage := t1, lastResponseTime := t2 },
          effects :=
            [Effect.genCall msg.Message s.conversationSummary,
             Effect.write ping
               { ID := docRef, Message := resp, Timestamp := tW, Processed := false },
             Effect.update docRef],
          error := none }) ∧
    (∀ e, env.writeErr ping docRef = some e →
      Effect.update docRef ∉ (handleMessage env ping docRef msg t1 tW t2 s).effects ∧
      (handleMessage env ping docRef msg t1 tW t2 s).error =
        some ("error writing response message: " ++ e)) := by
  constructor
  · intro hw hu
    simp only [handleMessage, generateResponse, writeMessage, hgen, hw, hu]
  · intro e hw
    simp only [handleMessage, generateResponse, writeMessage, hgen, hw]
    simp

/-- Witness for C5: a successful handling writes the reply under the
triggering ref `m1` and then marks it processed; with a failing reply write
no `processed` update happens. -/
theorem handleMessage_reply_binding_witness :
    handleMessage okEnv "gccdpune-go-pings" "m1" sampleMsg 1 2 3
        { lastUserMessage := 0, lastResponseTime := 0, conversationSummary := "" } =
      { state :=
          { lastUserMessage := 1, lastResponseTime := 3, conversationSummary := "" },
        effects :=
          [Effect.genCall "hello" "",
           Effect.write "gccdpune-go-pings"
             { ID := "m1", Message := "generated reply", Timestamp := 2,
               Processed := false },
           Effect.update "m1"],
        error := none } ∧
    (Effect.update "m1" ∉
        (handleMessage failWriteEnv "gccdpune-go-pings" "m1" sampleMsg 1 2 3
          { lastUserMessage := 0, lastResponseTime := 0,
            conversationSummary := "" }).effects ∧
      (handleMessage failWriteEnv "gccdpune-go-pings" "m1" sampleMsg 1 2 3
          { lastUserMessage := 0, lastResponseTime := 0,
            conversationSummary := "" }).error =
        some "error writing response message: rpc error: unavailable") :=
  ⟨(handleMessage_reply_binding okEnv "gccdpune-go-pings" "m1" sampleMsg 1 2 3
      { lastUserMessage := 0, lastResponseTime := 0, conversationSummary := "" }
      "generated reply" rfl).1 rfl rfl,
   (handleMessage_reply_binding failWriteEnv "gccdpune-go-pings" "m1" sampleMsg 1 2 3
      { lastUserMessage := 0, lastResponseTime := 0, conversationSummary := "" }
      "generated reply" rfl).2 "rpc error: unavailable" rfl⟩

/-- **C10.** Partial state mutation on live-handling error: whenever
handling a message returns an error (generation, reply write, or
mark-processed failure), the returned shared state has `lastUserMessage`
already advanced to the handling start time `t1`, while `lastResponseTime`
and `conversationSummary` keep their prior values — the state update is not
rolled back. -/
theorem handleMessage_error_partial_state (env : Env) (ping docRef : String)
    (msg : Message) (t1 tW t2 : Int) (s : ConvState)
    (herr : (handleMessage env ping docRef msg t1 tW t2 s).error.isSome) :
    (handleMessage env ping docRef msg t1 tW t2 s).state.lastUserMessage = t1 ∧
    (handleMessage env ping docRef msg t1 tW t2 s).state.lastResponseTime =
      s.lastResponseTime ∧
    (handleMessage env ping docRef msg t1 tW t2 s).state.conversationSummary =
      s.conversationSummary := by
  revert herr
  simp only [handleMessage, generateResponse, writeMessage]
  cases hg : env.gen msg.Message s.conversationSummary with
  | error e => simp
  | ok resp =>
    cases hw : env.writeErr ping docRef with
    | some e => simp
    | none =>
      cases hu : env.updateErr docRef with
      | some e => simp
      | none => simp

/-- Witness for C10: with a failing model call, handling returns an error,
`lastUserMessage` is advanced to the start time and `lastResponseTime` is
untouched. -/
theorem handleMessage_error_partial_state_witness :
    (handleMessage failGenEnv "gccdpune-go-pings" "m1" sampleMsg 7 8 9
        { lastUserMessage := 0, lastResponseTime := 5,
          conversationSummary := "sum" }).state.lastUserMessage = 7 ∧
    (handleMessage failGenEnv "gccdpune-go-pings" "m1" sampleMsg 7 8 9
        { lastUserMessage := 0, lastResponseTime := 5,
          conversationSummary := "sum" }).state.lastResponseTime = 5 ∧
    (handleMessage failGenEnv "gccdpune-go-pings" "m1" sampleMsg 7 8 9
        { lastUserMessage := 0, lastResponseTime := 5,
          conversationSummary := "sum" }).state.conversationSummary = "sum" :=
  handleMessage_error_partial_state failGenEnv "gccdpune-go-pings" "m1" sampleMsg 7 8 9
    { lastUserMessage := 0, lastResponseTime := 5, conversationSummary := "sum" }
    (by decide)

/-- **C6.** Timeout termination: if `Snapshots.Next` fails with the
distinguished `DeadlineExceeded` code, the listener returns `nil` (clean
termination); for an error with any other code it returns the non-nil
wrapped `Snapshots.Next` error. -/
theorem snapshotsNextCheck_timeout_clean :
    (∀ m : String,
      snapshotsNextCheck (some (.deadlineExceeded, m)) = .returnNil) ∧
    (∀ (c : GrpcCode) (m : String), c ≠ .deadlineExceeded →
      snapshotsNextCheck (some (c, m)) =
        .returnError ("Snapshots.Next: " ++ m)) := by
  refine ⟨fun m => rfl, fun c m hc => ?_⟩
  simp only [snapshotsNextCheck, if_neg hc]

/-- Witness for C6: a deadline-exceeded error terminates cleanly; an
`unknown`-coded error is returned as a non-nil error. -/
theorem snapshotsNextCheck_timeout_clean_witness :
    snapshotsNextCheck (some (.deadlineExceeded, "context deadline exceeded")) =
      .returnNil ∧
    snapshotsNextCheck (some (.unknown, "stream closed")) =
      .returnError "Snapshots.Next: stream closed" :=
  ⟨snapshotsNextCheck_timeout_clean.1 "context deadline exceeded",
   snapshotsNextCheck_timeout_clean.2 .unknown "stream closed" (by decide)⟩

/-- A document in the user-message collection: its Firestore ref id
(`doc.Ref.ID`) and its decoded data. -/
structure Doc where
  ref : String
  data : Message
deriving Repr, DecidableEq

/-- The effect of `doc.Ref.Update(ctx, {Path: "processed", Value: true})` on
the stored document. -/
def setProcessed (d : Doc) : Doc :=
  { d with data := { d.data with Processed := true } }

/-- Result of the backlog drain: the message store afterwards, the
successful effects in order, and the returned error (if any). -/
structure DrainResult where
  store : List Doc
  effects : List Effect
  error : Option String
deriving Repr, DecidableEq

/-- `markExistingMessagesAsProcessed`: iterates over the query snapshot of
documents with `processed == false` (in store order), updating each to
`processed := true`; the first failing update returns its error immediately,
leaving the failing document and everything after it untouched.  The store
is the whole collection; documents already processed are not selected by the
query and are never touched. -/
def markExistingMessagesAsProcessed (env : Env) : List Doc → DrainResult
  | [] => { store := [], effects := [], error := none }
  | d :: ds =>
    if d.data.Processed then
      let r := markExistingMessagesAsProcessed env ds
      { r with store := d :: r.store }
    else
      match env.updateErr d.ref with
      | some e =>
        { store := d :: ds, effects := [],
          error := some ("error marking message as processed: " ++ e) }
      | none =>
        let r := markExistingMessagesAsProcessed env ds
        { store := setProcessed d :: r.store,
          effects := Effect.update d.ref :: r.effects,
          error := r.error }

lemma setProcessed_eq_self (d : Doc) (h : d.data.Processed = true) :
    setProcessed d = d := by
  cases d with
  | mk ref data =>
    cases data
    simp only [setProcessed]
    simp_all

lemma drain_all_ok (env : Env) (store : List Doc)
    (h : ∀ d ∈ store, d.data.Processed = false → env.updateErr d.ref = none) :
    markExistingMessagesAsProcessed env store =
      { store := store.map setProcessed,
        effects := (store.filter (fun d => !d.data.Processed)).map
          (fun d => Effect.update d.ref),
        error := none } := by
  induction store with
  | nil => simp [markExistingMessagesAsProcessed]
  | cons d ds ih =>
    have hds : ∀ x ∈ ds, x.data.Processed = false → env.updateErr x.ref = none :=
      fun x hx => h x (List.mem_cons_of_mem d hx)
    by_cases hd : d.data.Processed
    · simp only [markExistingMessagesAsProcessed, if_pos hd, ih hds,
        List.map_cons, setProcessed_eq_self d hd, List.filter_cons, hd]
      simp [hd]
    · have hupd : env.updateErr d.ref = none :=
        h d (List.mem_cons_self d ds) (by simpa using hd)
      simp only [markExistingMessagesAsProcessed, if_neg hd, hupd, ih hds,
        List.map_cons, List.filter_cons]
      simp [hd]

lemma drain_fail (env : Env) (pre : List Doc) (d : Doc) (post : List Doc)
    (e : String)
    (hd : d.data.Processed = false)
    (hpre : ∀ x ∈ pre, x.data.Processed = false → env.updateErr x.ref = none)
    (hfail : env.updateErr d.ref = some e) :
    markExistingMessagesAsProcessed env (pre ++ d :: post) =
      { store := pre.map setProcessed ++ d :: post,
        effects := (pre.filter (fun x => !x.data.Processed)).map
          (fun x => Effect.update x.ref),
        error := some ("error marking message as processed: " ++ e) } := by
  induction pre with
  | nil =>
    simp only [List.nil_append, markExistingMessagesAsProcessed, hfail]
    rw [if_neg (by simp [hd])]
    simp
  | cons p ps ih =>
    have hps : ∀ x ∈ ps, x.data.Processed = false → env.updateErr x.ref = none :=
      fun x hx => hpre x (List.mem_cons_of_mem p hx)
    have ihr := ih hps
    by_cases hp : p.data.Processed
    · simp only [List.cons_append, markExistingMessagesAsProcessed, if_pos hp]
      simp [ihr, setProcessed_eq_self p hp, hp, List.filter_cons]
    · have hupd : env.updateErr p.ref = none :=
        hpre p (List.mem_cons_self p ps) (by simpa using hp)
      simp only [List.cons_append, markExistingMessagesAsProcessed, if_neg hp, hupd]
      simp [ihr, hp, List.filter_cons]

/-- **C4.** Backlog drain contract: (i) when every update succeeds, the
startup drain marks every `processed = false` document as processed,
performs exactly one `processed` update per unprocessed document and no
other effect (in particular no generation and no reply write), and returns
no error; (ii) if the update of some unprocessed document `d` fails (all
unprocessed documents before it succeeding), the drain returns that error
immediately: `d` and every document after it are left untouched. -/
theorem markExistingMessagesAsProcessed_contract (env : Env) (store : List Doc) :
    ((∀ r, env.updateErr r = none) →
      markExistingMessagesAsProcessed env store =
        { store := store.map setProcessed,
          effects := (store.filter (fun d => !d.data.Processed)).map
            (fun d => Effect.update d.ref),
          error := none }) ∧
    (∀ (pre : List Doc) (d : Doc) (post : List Doc) (e : String),
      store = pre ++ d :: post →
      d.data.Processed = false →
      (∀ x ∈ pre, x.data.Processed = false → env.updateErr x.ref = none) →
      env.updateErr d.ref = some e →
      markExistingMessagesAsProcessed env store =
        { store := pre.map setProcessed ++ d :: post,
          effects := (pre.filter (fun x => !x.data.Processed)).map
            (fun x => Effect.update x.ref),
          error := some ("error marking message as processed: " ++ e) }) := by
  constructor
  · intro h
    exact drain_all_ok env store (fun d _ _ => h d.ref)
  · intro pre d post e hstore hd hpre hfail
    rw [hstore]
    exact drain_fail env pre d post e hd hpre hfail

/-- Concrete unprocessed document `a`. -/
def docA : Doc :=
  { ref := "a", data := { ID := "a", Message := "hi", Timestamp := 0, Processed := false } }

/-- Concrete already-processed document `b`. -/
def docB : Doc :=
  { ref := "b", data := { ID := "b", Message := "old", Timestamp := 0, Processed := true } }

/-- Concrete unprocessed document `c`. -/
def docC : Doc :=
  { ref := "c", data := { ID := "c", Message := "hey", Timestamp := 0, Processed := false } }

/-- An `Env` in which only the `processed` update of document `c` fails. -/
def failUpdateEnvC : Env :=
  { gen := fun _ _ => .ok "generated reply",
    writeErr := fun _ _ => none,
    updateErr := fun r => if r = "c" then some "permission denied" else none }

/-- Witness for C4: a fully successful drain marks `a` and `c` (leaving the
already-processed `b` alone, with no reply write), and a drain whose update
of `c` fails stops there with the error, leaving `c` untouched. -/
theorem markExistingMessagesAsProcessed_contract_witness :
    markExistingMessagesAsProcessed okEnv [docA, docB, docC] =
      { store := List.map setProcessed [docA, docB, docC],
        effects := List.map (fun d => Effect.update d.ref)
          (List.filter (fun d => !d.data.Processed) [docA, docB, docC]),
        error := none } ∧
    markExistingMessagesAsProcessed failUpdateEnvC [docA, docB, docC] =
      { store := List.map setProcessed [docA, docB] ++ docC :: [],
        effects := List.map (fun x => Effect.update x.ref)
          (List.filter (fun x => !x.data.Processed) [docA, docB]),
        error := some ("error marking message as processed: " ++ "permission denied") } :=
  ⟨(markExistingMessagesAsProcessed_contract okEnv [docA, docB, docC]).1
      (fun _ => rfl),
   (markExistingMessagesAsProcessed_contract failUpdateEnvC [docA, docB, docC]).2
      [docA, docB] docC [] "permission denied" rfl rfl (by decide) (by decide)⟩

lemma drain_noop_of_processed (env : Env) (store : List Doc)
    (h : ∀ d ∈ store, d.data.Processed = true) :
    markExistingMessagesAsProcessed env store =
      { store := store, effects := [], error := none } := by
  induction store with
  | nil => simp [markExistingMessagesAsProcessed]
  | cons d ds ih =>
    have hd : d.data.Processed = true := h d (List.mem_cons_self d ds)
    have hds : ∀ x ∈ ds, x.data.Processed = true :=
      fun x hx => h x (List.mem_cons_of_mem d hx)
    simp only [markExistingMessagesAsProcessed, if_pos hd]
    simp [ih hds]

lemma drain_ok_processed (env : Env) (store : List Doc)
    (h : (markExistingMessagesAsProcessed env store).error = none) :
    ∀ d ∈ (markExistingMessagesAsProcessed env store).store,
      d.data.Processed = true := by
  induction store with
  | nil => simp [markExistingMessagesAsProcessed]
  | cons d ds ih =>
    by_cases hd : d.data.Processed
    · simp only [markExistingMessagesAsProcessed, if_pos hd] at h ⊢
      intro x hx
      rcases List.mem_cons.mp hx with hxd | hxs
      · simpa [hxd] using hd
      · exact ih h x hxs
    · rcases hu : env.updateErr d.ref with _ | e
      · simp only [markExistingMessagesAsProcessed, if_neg hd, hu] at h ⊢
        intro x hx
        rcases List.mem_cons.mp hx with hxd | hxs
        · subst hxd
          simp [setProcessed]
        · exact ih h x hxs
      · simp only [markExistingMessagesAsProcessed, if_neg hd, hu] at h
        exact absurd h (by simp)

/-- **C8.** Drain idempotence: if a drain run returns no error, running the
drain again on the resulting store performs no update at all (no effect is
produced — the query only selects `processed = false` documents and none
remain) and leaves every document unchanged. -/
theorem markExistingMessagesAsProcessed_idempotent (env : Env) (store : List Doc)
    (h : (markExistingMessagesAsProcessed env store).error = none) :
    markExistingMessagesAsProcessed env
        (markExistingMessagesAsProcessed env store).store =
      { store := (markExistingMessagesAsProcessed env store).store,
        effects := [], error := none } :=
  drain_noop_of_processed env _ (drain_ok_processed env store h)

/-- Witness for C8: a second drain over the drained three-document store is
a no-op. -/
theorem markExistingMessagesAsProcessed_idempotent_witness :
    markExistingMessagesAsProcessed okEnv
        (markExistingMessagesAsProcessed okEnv [docA, docB, docC]).store =
      { store := (markExistingMessagesAsProcessed okEnv [docA, docB, docC]).store,
        effects := [], error := none } :=
  markExistingMessagesAsProcessed_idempotent okEnv [docA, docB, docC] (by decide)

/-- One serialized critical section in the process lifetime: either the
handling of one delivered message by the listener (`msgEvent`, carrying the
triggering document and the three wall-clock readings taken inside it) or
one monitor tick (`tickEvent`, carrying the poll fetch outcome,
`currentTime` and the wall-clock reading inside `writeMessage`).  The mutex
serializes these sections, so a process run is a list of events. -/
inductive Event where
  | msgEvent (docRef : String) (msg : Message) (t1 tWrite t2 : Int)
  | tickEvent (fetchDoc : Except String PollQuestion) (currentTime tWrite : Int)
deriving Repr

/-- Execute one serialized critical section on the shared state. -/
def runEvent (env : Env) (ping : String) (s : ConvState) : Event → RunResult
  | .msgEvent docRef msg t1 tW t2 => handleMessage env ping docRef msg t1 tW t2 s
  | .tickEvent fetchDoc t tW => monitorTick env ping fetchDoc t tW s

/-- Earliest wall-clock reading inside an event. -/
def Event.tmin : Event → Int
  | .msgEvent _ _ t1 _ _ => t1
  | .tickEvent _ t _ => t

/-- Latest wall-clock reading inside an event. -/
def Event.tmax : Event → Int
  | .msgEvent _ _ _ _ t2 => t2
  | .tickEvent _ _ tW => tW

/-- The wall-clock readings inside one critical section are taken in
program order, so they are non-decreasing. -/
def Event.wfTimes : Event → Prop
  | .msgEvent _ _ t1 tW t2 => t1 ≤ tW ∧ tW ≤ t2
  | .tickEvent _ t tW => t ≤ tW

/-- The real clock is non-decreasing along a serialized run: each event is
internally ordered and starts no earlier than the latest reading of the
previous event (`tPrev`). -/
def timesOrdered (tPrev : Int) : List Event → Prop
  | [] => True
  | e :: es => Event.wfTimes e ∧ tPrev ≤ e.tmin ∧ timesOrdered e.tmax es

/-- Both shared timestamps are non-decreasing from `a` to `b`. -/
def stateMono (a b : ConvState) : Prop :=
  a.lastUserMessage ≤ b.lastUserMessage ∧
    a.lastResponseTime ≤ b.lastResponseTime

/-- The shared states observed after each serialized critical section. -/
def traceStates (env : Env) (ping : String) (s : ConvState) : List Event → List ConvState
  | [] => []
  | e :: es =>
    (runEvent env ping s e).state ::
      traceStates env ping (runEvent env ping s e).state es

/-- After every monitor tick whose poll fetch succeeded, the shared summary
is the text computed from the snapshot fetched on that very tick. -/
def summaryTracksTicks (env : Env) (ping : String) (s : ConvState) : List Event → Prop
  | [] => True
  | e :: es =>
    (∀ p t tW, e = .tickEvent (.ok p) t tW →
      (runEvent env ping s e).state.conversationSummary =
        updateConversationSummary (fetchPollStatusSummary p)) ∧
    summaryTracksTicks env ping (runEvent env ping s e).state es

lemma runEvent_mono (env : Env) (ping : String) (s : ConvState) (e : Event)
    (hwf : Event.wfTimes e)
    (h1 : s.lastUserMessage ≤ e.tmin) (h2 : s.lastResponseTime ≤ e.tmin) :
    stateMono s (runEvent env ping s e).state ∧
    (runEvent env ping s e).state.lastUserMessage ≤ e.tmax ∧
    (runEvent env ping s e).state.lastResponseTime ≤ e.tmax := by
  cases e with
  | msgEvent docRef msg t1 tW t2 =>
    simp only [Event.wfTimes] at hwf
    simp only [Event.tmin] at h1 h2
    simp only [runEvent, handleMessage, generateResponse, writeMessage, Event.tmax]
    cases hg : env.gen msg.Message s.conversationSummary with
    | error e => simp [stateMono]; omega
    | ok resp =>
      cases hw : env.writeErr ping docRef with
      | none =>
        cases hu : env.updateErr docRef with
        | none => simp [stateMono]; omega
        | some e => simp [stateMono]; omega
      | some e => simp [stateMono]; omega
  | tickEvent fetchDoc t tW =>
    simp only [Event.wfTimes] at hwf
    simp only [Event.tmin] at h1 h2
    simp only [runEvent, monitorTick, generateResponse, writeMessage, Event.tmax]
    cases fetchDoc with
    | error e => simp [fetchPollStatus, stateMono]; omega
    | ok p =>
      simp only [fetchPollStatus]
      by_cases hc : t - s.lastUserMessage > 30 * timeSecond ∧
          t - s.lastResponseTime ≥ 10 * timeSecond
      · rw [if_pos hc]
        cases hg : env.gen "prompt"
            (updateConversationSummary (fetchPollStatusSummary p)) with
        | error e => simp [stateMono]; omega
        | ok m =>
          cases hw : env.writeErr ping "host-prompt" with
          | none => simp [stateMono]; omega
          | some e => simp [stateMono]; omega
      · rw [if_neg hc]
        by_cases hc2 : t - s.lastResponseTime ≥ 15 * timeSecond
        · rw [if_pos hc2]
          cases hg : env.gen "poll-update"
              ("Poll update: " ++ fetchPollStatusSummary p) with
          | error e => simp [stateMono]; omega
          | ok m =>
            cases hw : env.writeErr ping "host-prompt" with
            | none => simp [stateMono]; omega
            | some e => simp [stateMono]; omega
        · rw [if_neg hc2]
          simp [stateMono]; omega

lemma runEvent_tick_summary (env : Env) (ping : String) (s : ConvState)
    (p : PollQuestion) (t tW : Int) :
    (runEvent env ping s (.tickEvent (.ok p) t tW)).state.conversationSummary =
      updateConversationSummary (fetchPollStatusSummary p) := by
  simp only [runEvent, monitorTick, fetchPollStatus, generateResponse, writeMessage]
  by_cases hc : t - s.lastUserMessage > 30 * timeSecond ∧
      t - s.lastResponseTime ≥ 10 * timeSecond
  · rw [if_pos hc]
    cases hg : env.gen "prompt"
        (updateConversationSummary (fetchPollStatusSummary p)) with
    | error e => simp
    | ok m =>
      cases hw : env.writeErr ping "host-prompt" with
      | none => simp
      | some e => simp
  · rw [if_neg hc]
    by_cases hc2 : t - s.lastResponseTime ≥ 15 * timeSecond
    · rw [if_pos hc2]
      cases hg : env.gen "poll-update"
          ("Poll update: " ++ fetchPollStatusSummary p) with
      | error e => simp
      | ok m =>
        cases hw : env.writeErr ping "host-prompt" with
        | none => simp
        | some e => simp
    · rw [if_neg hc2]

/-- **C3.** Timestamp monotonicity invariant: along any serialized run of
message-handling sections and monitor ticks whose wall-clock readings are
non-decreasing, the shared `lastUserMessage` and `lastResponseTime` are
monotonically non-decreasing across the whole run, and after every monitor
tick (with a successful poll fetch) the shared summary equals the text
computed from the poll snapshot fetched on that tick. -/
theorem conv_state_monotone (env : Env) (ping : String) (events : List Event)
    (s0 : ConvState) (tStart : Int)
    (h1 : s0.lastUserMessage ≤ tStart) (h2 : s0.lastResponseTime ≤ tStart)
    (hord : timesOrdered tStart events) :
    List.Chain' stateMono (s0 :: traceStates env ping s0 events) ∧
    summaryTracksTicks env ping s0 events := by
  induction events generalizing s0 tStart with
  | nil => simp [traceStates, summaryTracksTicks]
  | cons e es ih =>
    obtain ⟨hwf, hmin, hrest⟩ := hord
    have hm := runEvent_mono env ping s0 e hwf (le_trans h1 hmin) (le_trans h2 hmin)
    have hih := ih (runEvent env ping s0 e).state e.tmax hm.2.1 hm.2.2 hrest
    refine ⟨?_, ?_, hih.2⟩
    · simp only [traceStates, List.chain'_cons]
      exact ⟨hm.1, by simpa [traceStates] using hih.1⟩
    · intro p t tW he
      subst he
      exact runEvent_tick_summary env ping s0 p t tW

/-- Witness for C3: a concrete serialized run (one successful tick, then
one handled message) from the zero initial state has non-decreasing
timestamps and a summary tracking the tick's snapshot. -/
theorem conv_state_monotone_witness :
    List.Chain' stateMono
      (initialState :: traceStates okEnv "gccdpune-go-pings" initialState
        [Event.tickEvent (.ok samplePoll) (10 * timeSecond) (11 * timeSecond),
         Event.msgEvent "m1" sampleMsg (12 * timeSecond) (13 * timeSecond)
           (14 * timeSecond)]) ∧
    summaryTracksTicks okEnv "gccdpune-go-pings" initialState
      [Event.tickEvent (.ok samplePoll) (10 * timeSecond) (11 * timeSecond),
       Event.msgEvent "m1" sampleMsg (12 * timeSecond) (13 * timeSecond)
         (14 * timeSecond)] :=
  conv_state_monotone okEnv "gccdpune-go-pings"
    [Event.tickEvent (.ok samplePoll) (10 * timeSecond) (11 * timeSecond),
     Event.msgEvent "m1" sampleMsg (12 * timeSecond) (13 * timeSecond)
       (14 * timeSecond)]
    initialState 0 (by decide) (by decide)
    (by
      simp only [timesOrdered, Event.wfTimes, Event.tmin, Event.tmax, and_true]
      refine ⟨by decide, by decide, ⟨by decide, by decide⟩, by decide⟩)

/-- Control state of the workers with respect to the mutex `mu`: `locked`
tells whether `mu` is held; `pc w` is worker `w`'s position inside its
lock-protected section (`0` = outside, i.e. before `mu.Lock()` or after
`mu.Unlock()`; `1..steps w` = executing the protected micro-steps). -/
structure MuState (W : Type) where
  locked : Bool
  pc : W → Nat

/-- Both goroutines start outside their critical sections with `mu` free. -/
def muInit (W : Type) : MuState W := { locked := false, pc := fun _ => 0 }

/-- Interleaving semantics of `sync.Mutex` as used in `main.go`: a worker
outside its critical section may acquire the free lock and enter its first
protected micro-step (`mu.Lock()` blocks otherwise); a worker inside may
advance one micro-step; a worker at its last micro-step may release the lock
and leave (`mu.Unlock()`).  `steps w` is the number of protected micro-steps
of worker `w` — every access to `lastUserMessage`, `lastResponseTime` and
`conversationSummary` in both workers happens at some `pc w ≠ 0`. -/
inductive MuStep {W : Type} [DecidableEq W] (steps : W → Nat) :
    MuState W → MuState W → Prop
  | lock (st : MuState W) (w : W) (hl : st.locked = false) (hpc : st.pc w = 0)
      (hn : 0 < steps w) :
      MuStep steps st { locked := true, pc := Function.update st.pc w 1 }
  | work (st : MuState W) (w : W) (h1 : 0 < st.pc w) (h2 : st.pc w < steps w) :
      MuStep steps st { st with pc := Function.update st.pc w (st.pc w + 1) }
  | unlock (st : MuState W) (w : W) (hpc : st.pc w = steps w) (hn : 0 < steps w) :
      MuStep steps st { locked := false, pc := Function.update st.pc w 0 }

/-- Lock invariant: when `mu` is free nobody is inside a protected section,
and at most one worker is inside a protected section at any instant. -/
def MuInv {W : Type} (st : MuState W) : Prop :=
  (st.locked = false → ∀ w, st.pc w = 0) ∧
    (∀ w w', st.pc w ≠ 0 → st.pc w' ≠ 0 → w = w')

lemma muStep_inv {W : Type} [DecidableEq W] (steps : W → Nat)
    {st st' : MuState W} (hinv : MuInv st) (hstep : MuStep steps st st') :
    MuInv st' := by
  obtain ⟨hfree, huniq⟩ := hinv
  cases hstep with
  | lock w hl hpc hn =>
    constructor
    · intro h
      simp at h
    · intro x y hx hy
      simp only [Function.update_apply] at hx hy
      by_cases hxw : x = w
      · by_cases hyw : y = w
        · rw [hxw, hyw]
        · simp [hyw, hfree hl y] at hy
      · simp [hxw, hfree hl x] at hx
  | work w h1 h2 =>
    constructor
    · intro h
      exfalso
      have hz := hfree h w
      omega
    · intro x y hx hy
      simp only [Function.update_apply] at hx hy
      have hx' : st.pc x ≠ 0 := by
        by_cases hxw : x = w
        · subst hxw; omega
        · simpa [hxw] using hx
      have hy' : st.pc y ≠ 0 := by
        by_cases hyw : y = w
        · subst hyw; omega
        · simpa [hyw] using hy
      exact huniq x y hx' hy'
  | unlock w hpc hn =>
    constructor
    · intro _ x
      simp only [Function.update_apply]
      by_cases hxw : x = w
      · simp [hxw]
      · simp only [if_neg hxw]
        by_contra hx
        exact hxw (huniq x w hx (by omega))
    · intro x y hx hy
      simp only [Function.update_apply] at hx hy
      by_cases hxw : x = w
      · simp [hxw] at hx
      · simp only [if_neg hxw] at hx
        exact absurd (huniq x w hx (by omega)) hxw

lemma muReach_inv {W : Type} [DecidableEq W] (steps : W → Nat)
    {st : MuState W}
    (hreach : Relation.ReflTransGen (MuStep steps) (muInit W) st) :
    MuInv st := by
  induction hreach with
  | refl =>
    exact ⟨fun _ _ => rfl, fun w w' hw _ => absurd rfl hw⟩
  | tail _ hstep ih => exact muStep_inv steps ih hstep

/-- **C9.** Mutual exclusion: in every state reachable by interleaving the
workers' lock/step/unlock transitions from the initial state, at most one
worker is inside its lock-protected section — so no monitor tick can
observe or mutate the shared state while a message is being handled
(steps 2-6 are atomic with respect to the monitor), and any number of
message-handling sections sharing the lock are serialized one at a time. -/
theorem mutex_mutual_exclusion {W : Type} [DecidableEq W] (steps : W → Nat)
    (st : MuState W)
    (hreach : Relation.ReflTransGen (MuStep steps) (muInit W) st) :
    ∀ w w', st.pc w ≠ 0 → st.pc w' ≠ 0 → w = w' :=
  (muReach_inv steps hreach).2

/-- The two goroutines of `main.go` sharing the mutex `mu`. -/
inductive GoWorker where
  | messageListener
  | monitorWorker
deriving DecidableEq, Repr

/-- Protected micro-steps per worker: the listener holds `mu` for steps 2-6
of live handling (set `lastUserMessage`, generate, write reply, mark
processed, set `lastResponseTime`); the monitor holds it for the tick body
(read clock and fetch poll, refresh summary, decide and emit, set
`lastResponseTime`). -/
def goWorkerSteps : GoWorker → Nat
  | .messageListener => 5
  | .monitorWorker => 4

/-- Witness for C9: in the concrete reachable state where the listener has
just acquired `mu`, the only worker inside a critical section is the
listener itself. -/
theorem mutex_mutual_exclusion_witness :
    GoWorker.messageListener = GoWorker.messageListener :=
  mutex_mutual_exclusion goWorkerSteps
    { locked := true,
      pc := Function.update (fun _ => 0) GoWorker.messageListener 1 }
    (Relation.ReflTransGen.single
      (MuStep.lock (muInit GoWorker) GoWorker.messageListener rfl rfl
        (by decide)))
    GoWorker.messageListener GoWorker.messageListener
    (by simp) (by simp)

end GoThoughts
